import Mathlib

/-!
# DigitalBrochure — verification of the brochure layout/interaction subsystem

Shallow embedding of the client-side brochure editor
(`src/client/src/components/brochure/brochure-editor.tsx` and the
selected-products panel in `src/unnamed/part_002`).  JavaScript numbers
are modelled as rationals (`ℚ`); the partial maps held in React state
(`productPositions`, `productScales`, `productRotations`, `productPages`)
are modelled as association lists keyed by product id.
-/

namespace DigitalBrochure

/-- A 2-D position in canvas pixels (`{ x, y }` objects in the source). -/
structure Pos where
  x : ℚ
  y : ℚ
deriving Repr, DecidableEq

/-- A scale pair (`{ scaleX, scaleY }` objects in the source). -/
structure Scale where
  scaleX : ℚ
  scaleY : ℚ
deriving Repr, DecidableEq

/-! ## C1: discount change recomputes `newPrice`
Source: `src/unnamed/part_002`, `calculateNewPrice` (lines 17-19) and
`handleDiscountChange` (lines 25-28). -/

/-- `calculateNewPrice(originalPrice, discountPercent)` from
`src/unnamed/part_002` line 17: `originalPrice * (1 - discountPercent / 100)`. -/
def calculateNewPrice (originalPrice discountPercent : ℚ) : ℚ :=
  originalPrice * (1 - discountPercent / 100)

/-- The fields of a selected campaign product that the discount handler
touches (`CampaignProduct` in the shared schema). -/
structure CampaignProduct where
  id : Nat
  quantity : Nat
  discountPercent : ℚ
  newPrice : ℚ
deriving Repr, DecidableEq

/-- `handleDiscountChange(id, discountPercent, originalPrice)` from
`src/unnamed/part_002` lines 25-28: it computes the new price with
`calculateNewPrice` and updates the product with both the new discount and
the new price in one `onProductUpdate` call. -/
def handleDiscountChange (cp : CampaignProduct) (discountPercent originalPrice : ℚ) :
    CampaignProduct :=
  { cp with
      discountPercent := discountPercent,
      newPrice := calculateNewPrice originalPrice discountPercent }

/-! ## C5: drag clamping
Source: `brochure-editor.tsx`, `handleMouseMove`, `draggedProductId` branch
(lines 336-349). -/

/-- `const productSize = 132` (`brochure-editor.tsx` line 340). -/
def productSize : ℚ := 132

/-- The position computed by the `draggedProductId` branch of
`handleMouseMove` (`brochure-editor.tsx` lines 342-348) for pointer canvas
coordinates `(x, y)` on a canvas of size `canvasWidth × canvasHeight`:
`x := max(0, min(x - 66, canvasWidth - productSize))` and likewise for `y`
(66 is half the 132px product element). -/
def clampProductPos (x y canvasWidth canvasHeight : ℚ) : Pos :=
  { x := max 0 (min (x - 66) (canvasWidth - productSize)),
    y := max 0 (min (y - 66) (canvasHeight - productSize)) }

/-! ## C7: resize math
Source: `brochure-editor.tsx`, `handleProductResizeStart` (lines 269-284)
stores `initialResizeState = { startX, startY, startScale }`; the
`resizingProductId` branch of `handleMouseMove` (lines 366-381) computes the
new uniform scale. -/

/-- The `initialResizeState` recorded by `handleProductResizeStart`:
pointer position at the start of the gesture and the scale at that moment. -/
structure ResizeStart where
  startX : ℚ
  startY : ℚ
  startScale : Scale
deriving Repr, DecidableEq

/-- The `resizingProductId` branch of `handleMouseMove`
(`brochure-editor.tsx` lines 366-381): `deltaX/deltaY` are pointer travel
from the recorded start, `avgDelta = (deltaX + deltaY) / 2`,
`scaleFactor = max(0.1, startScale.scaleX + avgDelta / 150)`, and both
`scaleX` and `scaleY` are set to `scaleFactor`. -/
def resizeMoveStep (rs : ResizeStart) (pointerX pointerY : ℚ) : Scale :=
  let deltaX := pointerX - rs.startX
  let deltaY := pointerY - rs.startY
  let avgDelta := (deltaX + deltaY) / 2
  let scaleFactor := max (1/10) (rs.startScale.scaleX + avgDelta / 150)
  { scaleX := scaleFactor, scaleY := scaleFactor }

/-! ## C6: relative rotation tracking
Source: `brochure-editor.tsx`, `handleProductRotateStart` (lines 248-267)
and the `rotatingProductId` branch of `handleMouseMove` (lines 351-364).
The handlers compute angles with `Math.atan2(pointerY - centerY,
pointerX - centerX) * 180 / π`; that transcendental pointer-to-angle map is
taken as the input of the step functions here, and the accumulation logic
around it is translated literally. -/

/-- The pair of state cells the rotation gesture uses:
`productRotations[id]` (accumulated rotation in degrees) and
`lastMouseAngle`. -/
structure RotateSession where
  rotation : ℚ
  lastMouseAngle : ℚ
deriving Repr, DecidableEq

/-- One `rotatingProductId` step of `handleMouseMove`
(`brochure-editor.tsx` lines 351-364), given the angle `currentAngle`
computed by `atan2` for the current pointer: the rotation grows by
`currentAngle - lastMouseAngle` and `lastMouseAngle` becomes
`currentAngle`. -/
def rotateMoveStep (s : RotateSession) (currentAngle : ℚ) : RotateSession :=
  { rotation := s.rotation + (currentAngle - s.lastMouseAngle),
    lastMouseAngle := currentAngle }

/-- One rotate gesture: `handleProductRotateStart` sets
`lastMouseAngle := startAngle` (the `atan2` angle at pointer-down, lines
256-266) leaving the accumulated rotation untouched, then each pointer move
applies `rotateMoveStep` with the `atan2` angle of that move. -/
def rotateGesture (rotation startAngle : ℚ) (moves : List ℚ) : RotateSession :=
  moves.foldl rotateMoveStep { rotation := rotation, lastMouseAngle := startAngle }

/-! ## Placement state and page operations
Source: `brochure-editor.tsx` React state (lines 56-75) and the page
handlers (lines 77-93, 293-309). -/

/-- The `productPages` map: product id → assigned page number. -/
abbrev PageMap := List (Nat × Nat)

/-- The page lookup idiom `productPages[item.id] || 1` used throughout
`brochure-editor.tsx` (e.g. lines 422, 789): a missing entry — and, since
`0` is falsy in JavaScript, a `0` entry — reads as page 1. -/
def lookupPage (m : PageMap) (id : Nat) : Nat :=
  match m.lookup id with
  | some p => if p = 0 then 1 else p
  | none => 1

/-- The placement-related React state of `BrochureEditor`
(`brochure-editor.tsx` lines 56-65): the selected product ids in their
iteration order, the four per-product maps, the page count and the
`isDesignMode` prop. -/
structure EditorState where
  selectedProducts : List Nat
  productPositions : List (Nat × Pos)
  productScales : List (Nat × Scale)
  productRotations : List (Nat × ℚ)
  productPages : PageMap
  pages : Nat
  isDesignMode : Bool
deriving Repr, DecidableEq

/-- `addPage` (`brochure-editor.tsx` line 78): `setPages(prev => prev + 1)`. -/
def addPage (s : EditorState) : EditorState :=
  { s with pages := s.pages + 1 }

/-- `removePage` (`brochure-editor.tsx` lines 79-93): when `pages > 1`,
decrement the page count and rewrite every `productPages` entry equal to the
old count `pages` to `pages - 1` (the closure still sees the old `pages`
value when it filters). Otherwise do nothing. -/
def removePage (s : EditorState) : EditorState :=
  if 1 < s.pages then
    { s with
        pages := s.pages - 1,
        productPages := s.productPages.map fun pr =>
          if pr.2 = s.pages then (pr.1, s.pages - 1) else pr }
  else s

/-- `distributeProductsAcrossPages(numPages)` (`brochure-editor.tsx` lines
294-301): build a fresh `productPages` assigning the product at index
`index` to page `(index % numPages) + 1`, and replace the whole map. -/
def distributeProductsAcrossPages (s : EditorState) (numPages : Nat) : EditorState :=
  { s with
      productPages := s.selectedProducts.enum.map fun pr => (pr.2, pr.1 % numPages + 1) }

/-- `handlePagesChange(newPageCount)` (`brochure-editor.tsx` lines 304-309):
set the page count, then — if any products are selected — redistribute all
of them round-robin across the new count. -/
def handlePagesChange (s : EditorState) (newPageCount : Nat) : EditorState :=
  let s1 := { s with pages := newPageCount }
  if 0 < s.selectedProducts.length then distributeProductsAcrossPages s1 newPageCount
  else s1

/-! ## Auto-Layout engine
Source: `brochure-editor.tsx`, `handleAutoLayout` (lines 415-468). -/

/-- `Math.ceil(Math.sqrt(k))` on a natural number. -/
def ceilSqrt (k : Nat) : Nat :=
  if Nat.sqrt k * Nat.sqrt k = k then Nat.sqrt k else Nat.sqrt k + 1

/-- `gridCols = Math.min(3, Math.ceil(Math.sqrt(itemsInPage)))` (line 433). -/
def gridCols (k : Nat) : Nat := min 3 (ceilSqrt k)

/-- `gridRows = Math.ceil(itemsInPage / gridCols)` (line 434). -/
def gridRows (k : Nat) : Nat := (k + gridCols k - 1) / gridCols k

/-- `canvasWidth = isDesignMode ? 400 : 600` (line 436). -/
def canvasWidth (isDesignMode : Bool) : ℚ := if isDesignMode then 400 else 600

/-- `canvasHeight = isDesignMode ? 533 : 800` (line 437). -/
def canvasHeight (isDesignMode : Bool) : ℚ := if isDesignMode then 533 else 800

/-- `marginX = 40` (line 439). -/
def marginX : ℚ := 40

/-- `marginY = 150` (line 440). -/
def marginY : ℚ := 150

/-- `spaceX = (canvasWidth - 2 * marginX) / gridCols` (lines 442-444). -/
def spaceX (dm : Bool) (k : Nat) : ℚ :=
  (canvasWidth dm - 2 * marginX) / (gridCols k : ℚ)

/-- `spaceY = (canvasHeight - marginY - 40) / gridRows` (lines 443-445). -/
def spaceY (dm : Bool) (k : Nat) : ℚ :=
  (canvasHeight dm - marginY - 40) / (gridRows k : ℚ)

/-- The position that `handleAutoLayout` gives the product at index `i`
(within its page, in iteration order) on a page holding `k` products
(lines 447-454): `col = i % gridCols`, `row = ⌊i / gridCols⌋`,
`x = marginX + col * spaceX + (spaceX - productSize) / 2` and likewise for
`y` with `marginY`, `row` and `spaceY`. -/
def autoLayoutCell (dm : Bool) (k i : Nat) : Pos :=
  let col : Nat := i % gridCols k
  let row : Nat := i / gridCols k
  { x := marginX + (col : ℚ) * spaceX dm k + (spaceX dm k - productSize) / 2,
    y := marginY + (row : ℚ) * spaceY dm k + (spaceY dm k - productSize) / 2 }

/-- The grouping `productsByPage[pageNumber]` (lines 420-427): the selected
products, in their existing order, whose `productPages[item.id] || 1`
equals `p`. -/
def productsOnPage (s : EditorState) (p : Nat) : List Nat :=
  s.selectedProducts.filter fun id => lookupPage s.productPages id == p

/-- Insertion into a sorted list of page numbers (helper for the ascending
integer-key iteration order of `Object.entries`). -/
def insertSorted (a : Nat) : List Nat → List Nat
  | [] => [a]
  | b :: t => if a ≤ b then a :: b :: t else b :: insertSorted a t

/-- Insertion sort on page numbers. -/
def sortNat (l : List Nat) : List Nat := l.foldr insertSorted []

/-- The page keys of `productsByPage` in the order `Object.entries`
iterates them: distinct page numbers of the selected products, ascending
(JavaScript objects iterate integer-like keys in ascending numeric
order). -/
def pagesUsed (s : EditorState) : List Nat :=
  sortNat ((s.selectedProducts.map (lookupPage s.productPages)).dedup)

/-- The per-page `products.forEach((item, indexInPage) => ...)` loop
(lines 447-457), carrying the running index `i`. -/
def layoutPageAux (dm : Bool) (k : Nat) : Nat → List Nat → List (Nat × Pos)
  | _, [] => []
  | i, id :: t => (id, autoLayoutCell dm k i) :: layoutPageAux dm k (i + 1) t

/-- Lay out one page's products: each gets the grid cell of its index. -/
def layoutPage (dm : Bool) (ids : List Nat) : List (Nat × Pos) :=
  layoutPageAux dm ids.length 0 ids

/-- The full `newPositions` map built by `handleAutoLayout`: the page
chunks concatenated in `Object.entries` order. -/
def autoLayoutPositions (s : EditorState) : List (Nat × Pos) :=
  (pagesUsed s).foldr (fun p acc => layoutPage s.isDesignMode (productsOnPage s p) ++ acc) []

/-- `handleAutoLayout` (lines 415-468): replace `productPositions` with the
grid layout and `productScales` with `{scaleX: 1, scaleY: 1}` for every
laid-out product; `productRotations` and `productPages` are not touched
(line 462: "Don't modify productPages"). -/
def handleAutoLayout (s : EditorState) : EditorState :=
  { s with
      productPositions := autoLayoutPositions s,
      productScales := (autoLayoutPositions s).map fun pr => (pr.1, ⟨1, 1⟩) }

/-! ## Interaction session flags
Source: `brochure-editor.tsx` state cells (lines 51-55, 68) and the
pointer-down handlers (lines 234-284 and the date badge `onMouseDown` at
lines 919-927). -/

/-- The five session flags: `draggedElement`, `draggedProductId`,
`rotatingProductId`, `resizingProductId`, `isDraggingDate`. A variant is
active when its flag is `some _` (non-null in the source). -/
structure InteractionState where
  draggedElement : Option String
  draggedProductId : Option Nat
  rotatingProductId : Option Nat
  resizingProductId : Option Nat
  isDraggingDate : Option Nat
deriving Repr, DecidableEq

/-- The idle session: every flag null. -/
def idleInteraction : InteractionState :=
  { draggedElement := none, draggedProductId := none, rotatingProductId := none,
    resizingProductId := none, isDraggingDate := none }

/-- `handleMouseDown(elementType, e)` (lines 234-238): starts an element
drag; it sets `draggedElement` and clears only `draggedProductId`. -/
def handleMouseDown (st : InteractionState) (elementType : String) : InteractionState :=
  { st with draggedElement := some elementType, draggedProductId := none }

/-- `handleProductMouseDown(productId, e)` (lines 240-246): starts a
product drag; it sets `draggedProductId` and clears `draggedElement` and
`rotatingProductId` (but not `resizingProductId` or `isDraggingDate`). -/
def handleProductMouseDown (st : InteractionState) (productId : Nat) : InteractionState :=
  { st with draggedProductId := some productId, draggedElement := none,
            rotatingProductId := none }

/-- `handleProductRotateStart(productId, e)` (lines 248-254): sets
`rotatingProductId` and clears `draggedProductId`, `draggedElement` and
`resizingProductId` (but not `isDraggingDate`). -/
def handleProductRotateStart (st : InteractionState) (productId : Nat) : InteractionState :=
  { st with rotatingProductId := some productId, draggedProductId := none,
            draggedElement := none, resizingProductId := none }

/-- `handleProductResizeStart(productId, e)` (lines 269-275): sets
`resizingProductId` and clears `draggedProductId`, `draggedElement` and
`rotatingProductId` (but not `isDraggingDate`). -/
def handleProductResizeStart (st : InteractionState) (productId : Nat) : InteractionState :=
  { st with resizingProductId := some productId, draggedProductId := none,
            draggedElement := none, rotatingProductId := none }

/-- The date badge `onMouseDown` (lines 919-927): sets `isDraggingDate` to
the page number and clears none of the other flags. -/
def dateBadgeMouseDown (st : InteractionState) (pageNumber : Nat) : InteractionState :=
  { st with isDraggingDate := some pageNumber }

/-- `handleMouseUp` (lines 384-398): clears every session flag. -/
def handleMouseUpSession (_ : InteractionState) : InteractionState :=
  idleInteraction

/-- Number of simultaneously active interaction-session variants. -/
def activeCount (st : InteractionState) : Nat :=
  (if st.draggedElement.isSome then 1 else 0) +
  (if st.draggedProductId.isSome then 1 else 0) +
  (if st.rotatingProductId.isSome then 1 else 0) +
  (if st.resizingProductId.isSome then 1 else 0) +
  (if st.isDraggingDate.isSome then 1 else 0)

/-! ## Export pipeline (observable effects)
Source: `brochure-editor.tsx`, `handleDownload` (lines 555-646). -/

/-- The observable outcome of one `handleDownload` run: whether the edit
controls (hidden via `display = 'none'` before capture, line 582) are still
hidden when the handler returns, and which toasts were shown. -/
structure DownloadResult where
  controlsHidden : Bool
  errorToastShown : Bool
  successToastShown : Bool
  pdfNoticeShown : Bool
deriving Repr, DecidableEq

/-- `handleDownload(format)` (lines 555-646), with the outcome of the
`html2canvas` rasterization calls abstracted as the flag
`rasterizeThrows`. Control flow translated from the source:
`format === "pdf"` shows the PDF notice and returns before hiding anything;
zero page elements shows an error toast and returns before hiding anything;
otherwise the edit controls are hidden (line 582), and the `try` block
rasterizes and then restores the controls (line 630) before the success
toast — while the `catch` block (lines 637-643) only shows the error toast,
leaving the controls hidden. -/
def handleDownload (format : String) (numPages : Nat) (rasterizeThrows : Bool) :
    DownloadResult :=
  if format = "pdf" then
    { controlsHidden := false, errorToastShown := false,
      successToastShown := false, pdfNoticeShown := true }
  else if numPages = 0 then
    { controlsHidden := false, errorToastShown := true,
      successToastShown := false, pdfNoticeShown := false }
  else
    if rasterizeThrows then
      { controlsHidden := true, errorToastShown := true,
        successToastShown := false, pdfNoticeShown := false }
    else
      { controlsHidden := false, errorToastShown := false,
        successToastShown := true, pdfNoticeShown := false }

/-! ## Page-operation sequences (for the page-count invariant) -/

/-- A page-count operation: the `+`/`-` buttons call `addPage` and
`removePage`. -/
inductive PageOp where
  | add
  | remove
deriving Repr, DecidableEq

/-- Apply one page operation. -/
def applyPageOp (s : EditorState) (op : PageOp) : EditorState :=
  match op with
  | .add => addPage s
  | .remove => removePage s

/-- Apply a sequence of page operations, oldest first. -/
def applyPageOps (s : EditorState) (ops : List PageOp) : EditorState :=
  ops.foldl applyPageOp s

/-! ## Theorems -/

/-- C1: for every selected campaign product with referenced original price
`p ≥ 0` and every discount change to `d ∈ [0, 100]`, `handleDiscountChange`
immediately stores `newPrice = p * (1 - d/100)` together with
`discountPercent = d`, so the stored `newPrice` is consistent with the
stored discount and the referenced product's original price. -/
theorem discount_newPrice_consistent (cp : CampaignProduct) (d p : ℚ)
    (hp : 0 ≤ p) (hd0 : 0 ≤ d) (hd1 : d ≤ 100) :
    (handleDiscountChange cp d p).newPrice = p * (1 - d / 100)
    ∧ (handleDiscountChange cp d p).discountPercent = d
    ∧ (handleDiscountChange cp d p).newPrice
        = p * (1 - (handleDiscountChange cp d p).discountPercent / 100) := by
  refine ⟨rfl, rfl, rfl⟩

/-- Witness for C1: a product at original price 50 discounted by 20% gets
stored price 40. -/
theorem discount_newPrice_consistent_witness :
    (handleDiscountChange ⟨1, 1, 0, 50⟩ 20 50).newPrice = 50 * (1 - 20 / 100)
    ∧ (handleDiscountChange ⟨1, 1, 0, 50⟩ 20 50).newPrice = 40 := by
  have h := discount_newPrice_consistent ⟨1, 1, 0, 50⟩ 20 50 (by norm_num) (by norm_num)
    (by norm_num)
  exact ⟨h.1, by norm_num [handleDiscountChange, calculateNewPrice]⟩

/-- C5: during a product drag, the position computed for pointer `(x, y)`
on a `W × H` canvas (both at least the 132px element size, as the real
400×533 and 600×800 canvases are) is the pointer minus the 66px half-size,
clamped componentwise to `[0, dimension - 132]`; it is never negative,
always fits inside the canvas, and a pointer at `(0,0)` yields exactly
`(0,0)`. -/
theorem drag_clamped_to_canvas (x y W H : ℚ) (hW : 132 ≤ W) (hH : 132 ≤ H) :
    clampProductPos x y W H
      = ⟨max 0 (min (x - 66) (W - 132)), max 0 (min (y - 66) (H - 132))⟩
    ∧ 0 ≤ (clampProductPos x y W H).x ∧ (clampProductPos x y W H).x + 132 ≤ W
    ∧ 0 ≤ (clampProductPos x y W H).y ∧ (clampProductPos x y W H).y + 132 ≤ H
    ∧ clampProductPos 0 0 W H = ⟨0, 0⟩ := by
  refine ⟨rfl, le_max_left 0 _, ?_, le_max_left 0 _, ?_, ?_⟩
  · have h1 : min (x - 66) (W - productSize) ≤ W - 132 := by
      simpa [productSize] using min_le_right (x - 66) (W - productSize)
    have h2 : max 0 (min (x - 66) (W - productSize)) ≤ W - 132 :=
      max_le (by linarith) h1
    simpa [clampProductPos] using by linarith
  · have h1 : min (y - 66) (H - productSize) ≤ H - 132 := by
      simpa [productSize] using min_le_right (y - 66) (H - productSize)
    have h2 : max 0 (min (y - 66) (H - productSize)) ≤ H - 132 :=
      max_le (by linarith) h1
    simpa [clampProductPos] using by linarith
  · have hx : max 0 (min ((0 : ℚ) - 66) (W - productSize)) = 0 := by
      refine max_eq_left (le_trans (min_le_left _ _) ?_)
      norm_num
    have hy : max 0 (min ((0 : ℚ) - 66) (H - productSize)) = 0 := by
      refine max_eq_left (le_trans (min_le_left _ _) ?_)
      norm_num
    simp [clampProductPos, hx, hy]

/-- Witness for C5: on the 600×800 canvas, a pointer at `(0,0)` clamps the
product to `(0,0)` and the far-corner bound holds. -/
theorem drag_clamped_to_canvas_witness :
    clampProductPos 0 0 600 800 = ⟨0, 0⟩
    ∧ (clampProductPos 1000 1000 600 800).x + 132 ≤ 600 := by
  have h := drag_clamped_to_canvas 1000 1000 600 800 (by norm_num) (by norm_num)
  refine ⟨?_, h.2.2.1⟩
  exact (drag_clamped_to_canvas 0 0 600 800 (by norm_num) (by norm_num)).2.2.2.2.2

/-- C7: every resize move sets both `scaleX` and `scaleY` to
`max(0.1, startScale + ((px - startX) + (py - startY)) / 2 / 150)`, the
result never drops below `0.1`, and a `+75px` diagonal move from start
scale `1.0` yields the uniform scale `1.5`. -/
theorem resize_scale_formula (rs : ResizeStart) (px py : ℚ) :
    (resizeMoveStep rs px py).scaleX
      = max (1/10) (rs.startScale.scaleX + ((px - rs.startX) + (py - rs.startY)) / 2 / 150)
    ∧ (resizeMoveStep rs px py).scaleY = (resizeMoveStep rs px py).scaleX
    ∧ (1 : ℚ)/10 ≤ (resizeMoveStep rs px py).scaleX
    ∧ resizeMoveStep ⟨0, 0, ⟨1, 1⟩⟩ 75 75 = ⟨3/2, 3/2⟩ := by
  refine ⟨rfl, rfl, le_max_left _ _, ?_⟩
  simp only [resizeMoveStep]
  norm_num

/-- C6: each rotate move adds `currentAngle - lastAngle` to the accumulated
rotation and stores `currentAngle` as the new last angle; a whole gesture
therefore contributes exactly its net angle change, and two sequential
relative gestures of `+d₁` and `+d₂` compose additively — in particular
`+15°` then `+20°` gives `+35°`. -/
theorem rotation_relative_composition (r lastA a a₀ b₀ d₁ d₂ : ℚ) :
    (rotateMoveStep ⟨r, lastA⟩ a).rotation = r + (a - lastA)
    ∧ (rotateMoveStep ⟨r, lastA⟩ a).lastMouseAngle = a
    ∧ (∀ moves : List ℚ, (rotateGesture r a₀ moves).rotation = r + (moves.getLastD a₀ - a₀))
    ∧ (rotateGesture (rotateGesture r a₀ [a₀ + d₁]).rotation b₀ [b₀ + d₂]).rotation
        = r + (d₁ + d₂)
    ∧ (rotateGesture (rotateGesture r a₀ [a₀ + 15]).rotation b₀ [b₀ + 20]).rotation
        = r + 35 := by
  have key : ∀ (moves : List ℚ) (r' a' : ℚ),
      (rotateGesture r' a' moves).rotation = r' + (moves.getLastD a' - a') := by
    intro moves
    induction moves with
    | nil => intro r' a'; simp [rotateGesture]
    | cons m t ih =>
      intro r' a'
      have : rotateGesture r' a' (m :: t)
          = rotateGesture (r' + (m - a')) m t := by
        simp [rotateGesture, rotateMoveStep]
      rw [this, ih, List.getLastD_cons]
      ring
  refine ⟨rfl, rfl, fun moves => key moves r a₀, ?_, ?_⟩
  · rw [key, key]
    simp [List.getLastD]
    ring
  · rw [key, key]
    simp [List.getLastD]
    ring

/-- C9 (code bug exhibit): on a non-PDF download of one page where
rasterization throws, `handleDownload` shows the error toast but returns
with the edit controls still hidden — the restore on line 630 sits inside
the `try` block and the `catch` never runs it — while on the success path
the controls are restored. -/
theorem download_failure_leaves_controls_hidden :
    (handleDownload "png" 1 true).controlsHidden = true
    ∧ (handleDownload "png" 1 true).errorToastShown = true
    ∧ (handleDownload "png" 1 false).controlsHidden = false := by
  refine ⟨rfl, rfl, rfl⟩

/-- C8 (counterexample): the pointer-down handlers do not all clear the
other active variants. From the idle session, starting a rotation and then
pressing down on the logo element (which only clears `draggedProductId`)
leaves two variants — element drag and product rotation — simultaneously
active. -/
theorem interaction_two_variants_active :
    activeCount (handleMouseDown (handleProductRotateStart idleInteraction 1) "logo") = 2
    ∧ (handleMouseDown (handleProductRotateStart idleInteraction 1) "logo").draggedElement
        = some "logo"
    ∧ (handleMouseDown (handleProductRotateStart idleInteraction 1) "logo").rotatingProductId
        = some 1 := by
  refine ⟨rfl, rfl, rfl⟩

/-- C8 (amended): what each pointer-down handler actually clears.
`handleProductRotateStart` and `handleProductResizeStart` clear the three
other product/element flags but not the date-badge drag;
`handleProductMouseDown` clears the element drag and rotation but not
resizing or the date drag; the element `handleMouseDown` clears only the
product drag; the date-badge handler clears nothing. Hence at most one of
{product drag, rotation, resizing} is active after a rotate or resize
start, but the global at-most-one-variant invariant does not hold. -/
theorem interaction_handlers_clearing (st : InteractionState) (e : String) (id p : Nat) :
    ((handleMouseDown st e).draggedElement = some e
      ∧ (handleMouseDown st e).draggedProductId = none
      ∧ (handleMouseDown st e).rotatingProductId = st.rotatingProductId
      ∧ (handleMouseDown st e).resizingProductId = st.resizingProductId
      ∧ (handleMouseDown st e).isDraggingDate = st.isDraggingDate)
    ∧ ((handleProductMouseDown st id).draggedProductId = some id
      ∧ (handleProductMouseDown st id).draggedElement = none
      ∧ (handleProductMouseDown st id).rotatingProductId = none
      ∧ (handleProductMouseDown st id).resizingProductId = st.resizingProductId
      ∧ (handleProductMouseDown st id).isDraggingDate = st.isDraggingDate)
    ∧ ((handleProductRotateStart st id).rotatingProductId = some id
      ∧ (handleProductRotateStart st id).draggedElement = none
      ∧ (handleProductRotateStart st id).draggedProductId = none
      ∧ (handleProductRotateStart st id).resizingProductId = none
      ∧ (handleProductRotateStart st id).isDraggingDate = st.isDraggingDate)
    ∧ ((handleProductResizeStart st id).resizingProductId = some id
      ∧ (handleProductResizeStart st id).draggedElement = none
      ∧ (handleProductResizeStart st id).draggedProductId = none
      ∧ (handleProductResizeStart st id).rotatingProductId = none
      ∧ (handleProductResizeStart st id).isDraggingDate = st.isDraggingDate)
    ∧ ((dateBadgeMouseDown st p).isDraggingDate = some p
      ∧ (dateBadgeMouseDown st p).draggedElement = st.draggedElement
      ∧ (dateBadgeMouseDown st p).draggedProductId = st.draggedProductId
      ∧ (dateBadgeMouseDown st p).rotatingProductId = st.rotatingProductId
      ∧ (dateBadgeMouseDown st p).resizingProductId = st.resizingProductId)
    ∧ handleMouseUpSession st = idleInteraction := by
  exact ⟨⟨rfl, rfl, rfl, rfl, rfl⟩, ⟨rfl, rfl, rfl, rfl, rfl⟩, ⟨rfl, rfl, rfl, rfl, rfl⟩,
    ⟨rfl, rfl, rfl, rfl, rfl⟩, ⟨rfl, rfl, rfl, rfl, rfl⟩, rfl⟩

/-- C10: `removePage` at page count 1 leaves the entire editor state
unchanged — the whole handler body is guarded by `pages > 1` — and under
every sequence of `addPage`/`removePage` operations the page count never
falls below 1. -/
theorem pages_never_below_one :
    (∀ s : EditorState, s.pages = 1 → removePage s = s)
    ∧ (∀ (s : EditorState) (ops : List PageOp),
        1 ≤ s.pages → 1 ≤ (applyPageOps s ops).pages) := by
  constructor
  · intro s h
    simp [removePage, h]
  · intro s ops
    induction ops generalizing s with
    | nil => intro h; exact h
    | cons op t ih =>
      intro h
      have hstep : 1 ≤ (applyPageOp s op).pages := by
        cases op with
        | add => simp [applyPageOp, addPage]
        | remove =>
          by_cases h1 : 1 < s.pages
          · simp [applyPageOp, removePage, h1]; omega
          · simp [applyPageOp, removePage, h1]; omega
      simpa [applyPageOps, List.foldl] using ih (applyPageOp s op) hstep

/-- Witness for C10: a one-page state survives `removePage` unchanged, and
two removals followed by an addition from one page never drop the count
below 1. -/
theorem pages_never_below_one_witness :
    removePage
        { selectedProducts := [10], productPositions := [], productScales := [],
          productRotations := [], productPages := [(10, 1)], pages := 1,
          isDesignMode := false }
      = { selectedProducts := [10], productPositions := [], productScales := [],
          productRotations := [], productPages := [(10, 1)], pages := 1,
          isDesignMode := false }
    ∧ 1 ≤ (applyPageOps
        { selectedProducts := [10], productPositions := [], productScales := [],
          productRotations := [], productPages := [(10, 1)], pages := 1,
          isDesignMode := false } [.remove, .remove, .add]).pages := by
  exact ⟨pages_never_below_one.1 _ rfl, pages_never_below_one.2 _ _ (by decide)⟩

/-- A concrete editor state for the page-shrink scenario: three products,
one per page, three pages. -/
def exShrink : EditorState :=
  { selectedProducts := [10, 20, 30], productPositions := [], productScales := [],
    productRotations := [], productPages := [(10, 1), (20, 2), (30, 3)], pages := 3,
    isDesignMode := false }

/-- C2 (counterexample): with products on pages {1, 2, 3}, shrinking to 2
pages through the page-count selector (`handlePagesChange`) does NOT send
the page-3 product to page 2: `distributeProductsAcrossPages` reassigns
round-robin by index, so product 30 (index 2, page 3) lands on page
`2 % 2 + 1 = 1`. -/
theorem pagesChange_sends_page3_to_page1 :
    lookupPage exShrink.productPages 30 = 3
    ∧ exShrink.pages = 3
    ∧ lookupPage (handlePagesChange exShrink 2).productPages 30 = 1
    ∧ lookupPage (handlePagesChange exShrink 2).productPages 30 ≠ 2 := by
  refine ⟨rfl, rfl, rfl, by decide⟩

/-- C2 (amended): shrinking by removing the last page (`removePage`) moves
exactly the products of the removed page `N` to the new last page `N - 1`
and keeps every other assignment, dropping no product; shrinking through
the page-count selector (`handlePagesChange` with products selected)
instead redistributes every selected product round-robin — the product at
index `i` goes to page `i % n + 1` — again dropping none, with every
resulting page in `[1, n]`. -/
theorem pageShrink_behavior (s : EditorState) (n : Nat) (hn : 0 < n)
    (hne : 0 < s.selectedProducts.length) (h1 : 1 < s.pages) :
    ((removePage s).pages = s.pages - 1)
    ∧ ((removePage s).productPages.map Prod.fst = s.productPages.map Prod.fst)
    ∧ (∀ pr ∈ s.productPages, pr.2 = s.pages →
        (pr.1, s.pages - 1) ∈ (removePage s).productPages)
    ∧ (∀ pr ∈ s.productPages, pr.2 ≠ s.pages → pr ∈ (removePage s).productPages)
    ∧ ((handlePagesChange s n).productPages
        = s.selectedProducts.enum.map fun pr => (pr.2, pr.1 % n + 1))
    ∧ ((handlePagesChange s n).productPages.map Prod.fst = s.selectedProducts)
    ∧ (∀ pr ∈ (handlePagesChange s n).productPages, 1 ≤ pr.2 ∧ pr.2 ≤ n) := by
  have hfst : ∀ pr : Nat × Nat,
      (if pr.2 = s.pages then (pr.1, s.pages - 1) else pr).1 = pr.1 := by
    intro pr; by_cases h : pr.2 = s.pages <;> simp [h]
  have hdist : (handlePagesChange s n).productPages
      = s.selectedProducts.enum.map fun pr => (pr.2, pr.1 % n + 1) := by
    simp [handlePagesChange, distributeProductsAcrossPages, hne]
  refine ⟨by simp [removePage, h1], ?_, ?_, ?_, hdist, ?_, ?_⟩
  · simp [removePage, h1, List.map_map, Function.comp_def, hfst]
  · intro pr hpr hp2
    simp only [removePage, if_pos h1]
    exact List.mem_map.mpr ⟨pr, hpr, by simp [hp2]⟩
  · intro pr hpr hp2
    simp only [removePage, if_pos h1]
    exact List.mem_map.mpr ⟨pr, hpr, by simp [hp2]⟩
  · rw [hdist, List.map_map]
    have : (Prod.fst ∘ fun pr : Nat × Nat => (pr.2, pr.1 % n + 1)) = Prod.snd := by
      funext pr; rfl
    rw [this]
    exact List.enum_map_snd _
  · intro pr hpr
    rw [hdist] at hpr
    obtain ⟨q, _, hq⟩ := List.mem_map.mp hpr
    have h2 : pr.2 = q.1 % n + 1 := by rw [← hq]
    have hlt : q.1 % n < n := Nat.mod_lt _ hn
    omega

/-- Witness for C2 (amended): on the three-page, three-product state,
`removePage` drops the count to 2 and `handlePagesChange 2` keeps all
three products. -/
theorem pageShrink_behavior_witness :
    (removePage exShrink).pages = exShrink.pages - 1
    ∧ (handlePagesChange exShrink 2).productPages.map Prod.fst = exShrink.selectedProducts
    ∧ (10, 2) ∈ (removePage
        { selectedProducts := [10], productPositions := [], productScales := [],
          productRotations := [], productPages := [(10, 3)], pages := 3,
          isDesignMode := false }).productPages := by
  have h := pageShrink_behavior exShrink 2 (by decide) (by decide) (by decide)
  have h2 := pageShrink_behavior
    { selectedProducts := [10], productPositions := [], productScales := [],
      productRotations := [], productPages := [(10, 3)], pages := 3,
      isDesignMode := false } 2 (by decide) (by decide) (by decide)
  exact ⟨h.1, h.2.2.2.2.2.1, h2.2.2.1 (10, 3) (by decide) rfl⟩

/-! ### Association-list helper lemmas for the auto-layout proofs -/

/-- A key absent from an association list looks up to `none`. -/
lemma lookup_eq_none_of_notMem {β : Type} (l : List (Nat × β)) (a : Nat)
    (h : a ∉ l.map Prod.fst) : l.lookup a = none := by
  induction l with
  | nil => rfl
  | cons pr t ih =>
    obtain ⟨k, v⟩ := pr
    simp only [List.map_cons, List.mem_cons] at h
    push_neg at h
    have hk : (a == k) = false := beq_eq_false_iff_ne.mpr h.1
    simp [List.lookup, hk, ih h.2]

/-- Looking up a key present in the left part of an append stays in the
left part. -/
lemma lookup_append_left_of_mem {β : Type} (l₁ l₂ : List (Nat × β)) (a : Nat)
    (h : a ∈ l₁.map Prod.fst) : (l₁ ++ l₂).lookup a = l₁.lookup a := by
  induction l₁ with
  | nil => simp at h
  | cons pr t ih =>
    obtain ⟨k, v⟩ := pr
    by_cases hk : a = k
    · have : (a == k) = true := beq_iff_eq.mpr hk
      simp [List.lookup, this]
    · have hf : (a == k) = false := beq_eq_false_iff_ne.mpr hk
      have hmem : a ∈ t.map Prod.fst := by
        simp only [List.map_cons, List.mem_cons] at h
        exact h.resolve_left hk
      simp [List.lookup, hf, ih hmem]

/-- Looking up a key absent from the left part of an append skips to the
right part. -/
lemma lookup_append_right_of_notMem {β : Type} (l₁ l₂ : List (Nat × β)) (a : Nat)
    (h : a ∉ l₁.map Prod.fst) : (l₁ ++ l₂).lookup a = l₂.lookup a := by
  induction l₁ with
  | nil => rfl
  | cons pr t ih =>
    obtain ⟨k, v⟩ := pr
    simp only [List.map_cons, List.mem_cons] at h
    push_neg at h
    have hk : (a == k) = false := beq_eq_false_iff_ne.mpr h.1
    simp [List.lookup, hk, ih h.2]

/-- Mapping every value of an association list to a constant commutes with
lookup. -/
lemma lookup_map_const {β γ : Type} (c : γ) (l : List (Nat × β)) (a : Nat) :
    (l.map fun pr => (pr.1, c)).lookup a = (l.lookup a).map fun _ => c := by
  induction l with
  | nil => rfl
  | cons pr t ih =>
    obtain ⟨k, v⟩ := pr
    by_cases hk : a = k
    · have : (a == k) = true := beq_iff_eq.mpr hk
      simp [List.lookup, this]
    · have hf : (a == k) = false := beq_eq_false_iff_ne.mpr hk
      simp [List.lookup, hf, ih]

/-! ### Page-key ordering helper lemmas -/

/-- Membership in `insertSorted`. -/
lemma mem_insertSorted (a b : Nat) (l : List Nat) :
    a ∈ insertSorted b l ↔ a = b ∨ a ∈ l := by
  induction l with
  | nil => simp [insertSorted]
  | cons c t ih =>
    by_cases h : b ≤ c
    · simp [insertSorted, h]
    · simp only [insertSorted, if_neg h, List.mem_cons, ih]
      tauto

/-- `sortNat` preserves membership. -/
lemma mem_sortNat (a : Nat) (l : List Nat) : a ∈ sortNat l ↔ a ∈ l := by
  induction l with
  | nil => simp [sortNat]
  | cons b t ih =>
    show a ∈ insertSorted b (sortNat t) ↔ _
    rw [mem_insertSorted, ih]
    simp

/-- The page of every selected product appears among the iterated page
keys. -/
lemma mem_pagesUsed (s : EditorState) (id : Nat) (hid : id ∈ s.selectedProducts) :
    lookupPage s.productPages id ∈ pagesUsed s := by
  rw [pagesUsed, mem_sortNat, List.mem_dedup]
  exact List.mem_map_of_mem _ hid

/-! ### Per-page layout helper lemmas -/

/-- The keys laid out by `layoutPageAux` are exactly the input ids. -/
lemma layoutPageAux_keys (dm : Bool) (k : Nat) :
    ∀ (i : Nat) (ids : List Nat), (layoutPageAux dm k i ids).map Prod.fst = ids := by
  intro i ids
  induction ids generalizing i with
  | nil => rfl
  | cons id t ih => simp [layoutPageAux, ih]

/-- The keys of `layoutPage` are exactly the page's product ids. -/
lemma layoutPage_keys (dm : Bool) (ids : List Nat) :
    (layoutPage dm ids).map Prod.fst = ids :=
  layoutPageAux_keys dm ids.length 0 ids

/-- In a duplicate-free page, the `j`-th product looks up to the grid cell
of index `i + j` when the running index starts at `i`. -/
lemma layoutPageAux_lookup (dm : Bool) (k : Nat) (ids : List Nat) (hnd : ids.Nodup) :
    ∀ (i j : Nat) (h : j < ids.length),
      (layoutPageAux dm k i ids).lookup (ids.get ⟨j, h⟩)
        = some (autoLayoutCell dm k (i + j)) := by
  induction ids with
  | nil => intro i j h; simp at h
  | cons id t ih =>
    intro i j h
    match j with
    | 0 =>
      simp [layoutPageAux, List.lookup]
    | Nat.succ j' =>
      have hj : j' < t.length := by simpa using h
      have hget : (id :: t).get ⟨j' + 1, h⟩ = t.get ⟨j', hj⟩ := List.get_cons_succ
      have hne : t.get ⟨j', hj⟩ ≠ id := by
        intro he
        exact (List.nodup_cons.mp hnd).1 (he ▸ List.get_mem t j' hj)
      have hf : (t.get ⟨j', hj⟩ == id) = false := beq_eq_false_iff_ne.mpr hne
      rw [hget]
      show List.lookup _ ((id, autoLayoutCell dm k i) :: layoutPageAux dm k (i + 1) t) = _
      rw [List.lookup]
      simp only [hf]
      have hidx : i + (j' + 1) = (i + 1) + j' := by omega
      rw [hidx]
      exact ih (List.nodup_cons.mp hnd).2 (i + 1) j' hj

/-- Every member of `productsOnPage s p` is a selected product whose page
is `p`. -/
lemma page_of_mem_productsOnPage (s : EditorState) (p id : Nat)
    (h : id ∈ productsOnPage s p) :
    id ∈ s.selectedProducts ∧ lookupPage s.productPages id = p := by
  have := List.mem_filter.mp h
  exact ⟨this.1, by simpa using this.2⟩

/-- A selected product is on its own page's product list. -/
lemma mem_productsOnPage_self (s : EditorState) (id : Nat)
    (hid : id ∈ s.selectedProducts) :
    id ∈ productsOnPage s (lookupPage s.productPages id) := by
  refine List.mem_filter.mpr ⟨hid, by simp⟩

/-- Looking a selected product up in the concatenated auto-layout output is
the same as looking it up in its own page's chunk. -/
lemma autoLayoutPositions_lookup_eq_chunk (s : EditorState) (id : Nat)
    (hid : id ∈ s.selectedProducts) :
    (autoLayoutPositions s).lookup id
      = (layoutPage s.isDesignMode
          (productsOnPage s (lookupPage s.productPages id))).lookup id := by
  have hmem : lookupPage s.productPages id ∈ pagesUsed s := mem_pagesUsed s id hid
  rw [autoLayoutPositions]
  generalize pagesUsed s = L at hmem
  induction L with
  | nil => simp at hmem
  | cons q t ih =>
    simp only [List.foldr]
    by_cases hq : q = lookupPage s.productPages id
    · subst hq
      refine lookup_append_left_of_mem _ _ _ ?_
      rw [layoutPage_keys]
      exact mem_productsOnPage_self s id hid
    · have hnot : id ∉ (layoutPage s.isDesignMode (productsOnPage s q)).map Prod.fst := by
        rw [layoutPage_keys]
        intro hmem2
        exact hq ((page_of_mem_productsOnPage s q id hmem2).2.symm)
      rw [lookup_append_right_of_notMem _ _ _ hnot]
      refine ih ?_
      rcases List.mem_cons.mp hmem with h | h
      · exact absurd h.symm hq
      · exact h

/-- A selected product always has a laid-out position. -/
lemma autoLayoutPositions_lookup_isSome (s : EditorState)
    (hnd : s.selectedProducts.Nodup) (id : Nat) (hid : id ∈ s.selectedProducts) :
    ∃ pos, (autoLayoutPositions s).lookup id = some pos := by
  rw [autoLayoutPositions_lookup_eq_chunk s id hid]
  have hmem := mem_productsOnPage_self s id hid
  obtain ⟨⟨j, hj⟩, hget⟩ := List.mem_iff_get.mp hmem
  have hnodup : (productsOnPage s (lookupPage s.productPages id)).Nodup :=
    hnd.filter _
  refine ⟨autoLayoutCell s.isDesignMode
    (productsOnPage s (lookupPage s.productPages id)).length (0 + j), ?_⟩
  have hlook := layoutPageAux_lookup s.isDesignMode
    (productsOnPage s (lookupPage s.productPages id)).length
    (productsOnPage s (lookupPage s.productPages id)) hnodup 0 j hj
  rw [hget] at hlook
  exact hlook

/-- C3: every Auto-Layout invocation works per page: on a page holding `k`
of the selected products (partitioned by their current page assignment),
the product at in-page index `i` — in the products' existing iteration
order — is stored at grid cell `(i % cols, i / cols)` of the
`gridCols k × gridRows k` grid over the usable canvas area, with its 132px
element centred in the cell (`cols = min(3, ⌈√k⌉)`, `spaceX/spaceY` the
cell sizes over the canvas minus the fixed margins); every selected
product's scale is reset to exactly `(1, 1)`; and the rotation and page
assignment maps are left unchanged. -/
theorem autoLayout_grid_spec (s : EditorState) (hnd : s.selectedProducts.Nodup)
    (p i : Nat) (hi : i < (productsOnPage s p).length) :
    ((handleAutoLayout s).productPositions.lookup ((productsOnPage s p).get ⟨i, hi⟩)
        = some (autoLayoutCell s.isDesignMode (productsOnPage s p).length i))
    ∧ ((autoLayoutCell s.isDesignMode (productsOnPage s p).length i).x + productSize / 2
        = marginX + (((i % gridCols (productsOnPage s p).length : Nat) : ℚ) + 1/2)
            * spaceX s.isDesignMode (productsOnPage s p).length)
    ∧ ((autoLayoutCell s.isDesignMode (productsOnPage s p).length i).y + productSize / 2
        = marginY + (((i / gridCols (productsOnPage s p).length : Nat) : ℚ) + 1/2)
            * spaceY s.isDesignMode (productsOnPage s p).length)
    ∧ (∀ id ∈ s.selectedProducts,
        (handleAutoLayout s).productScales.lookup id = some ⟨1, 1⟩)
    ∧ (handleAutoLayout s).productRotations = s.productRotations
    ∧ (handleAutoLayout s).productPages = s.productPages := by
  have hmem : (productsOnPage s p).get ⟨i, hi⟩ ∈ productsOnPage s p :=
    List.get_mem _ i hi
  obtain ⟨hid, hpage⟩ := page_of_mem_productsOnPage s p _ hmem
  refine ⟨?_, ?_, ?_, ?_, rfl, rfl⟩
  · have hchunk := autoLayoutPositions_lookup_eq_chunk s _ hid
    rw [hpage] at hchunk
    have hnodup : (productsOnPage s p).Nodup := hnd.filter _
    have hlook := layoutPageAux_lookup s.isDesignMode (productsOnPage s p).length
      (productsOnPage s p) hnodup 0 i hi
    rw [Nat.zero_add] at hlook
    show (autoLayoutPositions s).lookup _ = _
    rw [hchunk]
    exact hlook
  · simp only [autoLayoutCell]
    ring
  · simp only [autoLayoutCell]
    ring
  · intro id hid'
    obtain ⟨pos, hpos⟩ := autoLayoutPositions_lookup_isSome s hnd id hid'
    show ((autoLayoutPositions s).map fun pr => (pr.1, (⟨1, 1⟩ : Scale))).lookup id = _
    rw [lookup_map_const, hpos]
    rfl

/-- A concrete editor state for the auto-layout witness: three products,
two on page 1 and one on page 2, on the 600×800 canvas. -/
def exLayout : EditorState :=
  { selectedProducts := [10, 20, 30], productPositions := [], productScales := [],
    productRotations := [], productPages := [(10, 1), (20, 1), (30, 2)], pages := 2,
    isDesignMode := false }

/-- Witness for C3: on the concrete two-page state, the second product of
page 1 gets the cell of index 1, every scale becomes `(1, 1)` and the page
map is untouched. -/
theorem autoLayout_grid_spec_witness :
    ((handleAutoLayout exLayout).productPositions.lookup
        ((productsOnPage exLayout 1).get ⟨1, by decide⟩)
      = some (autoLayoutCell exLayout.isDesignMode (productsOnPage exLayout 1).length 1))
    ∧ ((handleAutoLayout exLayout).productScales.lookup 30 = some ⟨1, 1⟩)
    ∧ (handleAutoLayout exLayout).productPages = exLayout.productPages := by
  have h := autoLayout_grid_spec exLayout (by decide) 1 1 (by decide)
  exact ⟨h.1, h.2.2.2.1 30 (by decide), h.2.2.2.2.2⟩

/-- C4: Auto-Layout is idempotent — a second invocation with no
intervening change to the selected products, their page assignments or the
canvas mode recomputes exactly the same position and scale maps, because
the layout reads only the selection, the page assignments and the canvas
dimensions, none of which it modifies. -/
theorem autoLayout_idempotent (s : EditorState) :
    handleAutoLayout (handleAutoLayout s) = handleAutoLayout s := rfl

end DigitalBrochure
